import Mathlib

/-!
Verification of the NBAScoutPro scoring and comparison engine
(`app/similarity.py` together with the configuration tables of `config.py`).

The Python code works on string-keyed dictionaries of numbers; missing keys
are resolved by `dict.get(key, default)`.  We embed a player as a structure
of `Option ℚ` fields (a `none` field is a missing dictionary key) and embed
each `get` with its default explicitly.  Python's `x or d` idiom (which
replaces a zero/None value by `d`) is embedded as `pyOr`.  All arithmetic is
exact rational arithmetic; the one irrational operation of the engine,
`math.sqrt` in the final similarity score, is embedded as `Real.sqrt`, so
the score lives in `ℝ` while every other quantity stays in `ℚ`.
The Python code rounds some returned numbers for display
(`round(x, 1)` on scores); `roundTo1` embeds this rounding for
`predict_tier` (Python rounds half to even, which differs from `round` only
at exact `.05` ties; no value in any statement here sits on such a tie).
Human-readable reason strings are embedded as fixed labels without the
numeric interpolation of the Python f-strings; no property proved here
depends on the text of a reason, only on which reasons fire.
-/

namespace NBAScoutPro

/-- Python's `x or d` for numbers: `0` (and `None`, which we fold into the
missing-key case) is falsy and replaced by the default. -/
def pyOr (v d : ℚ) : ℚ := if v = 0 then d else v

/-- `config.STAT_RANGES`: per-stat (low, high) normalization ranges. -/
def STAT_RANGES : List (String × ℚ × ℚ) :=
  [("height", (70, 86)), ("weight", (160, 280)), ("ws", (70, 96)),
   ("ft", (40, 95)), ("fg", (35, 65)), ("threeP", (0, 50)),
   ("bpm", (-5, 15)), ("obpm", (-5, 12)), ("dbpm", (-3, 8)), ("usg", (12, 40)),
   ("ppg", (0, 30)), ("rpg", (0, 15)), ("apg", (0, 11)), ("spg", (0, 3.5)),
   ("bpg", (0, 5.0)), ("tpg", (0, 5.0)), ("mpg", (15, 40)), ("ato", (0, 4.0)),
   ("age", (1, 4)),
   ("fta_pg", (0, 10)), ("ftm", (0, 8)), ("stl_per", (0, 5.0)),
   ("stops", (0, 10)), ("rimmade", (0, 5)), ("rim_att", (0, 8)),
   ("ftr", (15, 60)), ("rim_pct", (30, 85)), ("tpa", (0, 10))]

/-- `config.MAX_STATS`: fallback per-stat maxima for stats without a curated
range. -/
def MAX_STATS : List (String × ℚ) :=
  [("ppg", 30), ("rpg", 15), ("apg", 11), ("spg", 3.5), ("bpg", 5.0),
   ("fg", 70), ("threeP", 50), ("ft", 95), ("tpg", 5.0), ("ato", 4.0),
   ("height", 86), ("weight", 300), ("ws", 92), ("age", 24), ("mpg", 40.0),
   ("bpm", 15), ("obpm", 12), ("dbpm", 8), ("fta", 10), ("ftm", 8),
   ("stl_per", 5.0), ("usg", 40),
   ("stops", 10), ("rimmade", 5), ("rim_att", 8),
   ("ts_per", 70), ("adjoe", 135), ("adrtg", 110),
   ("ftr", 60), ("rim_pct", 85), ("tpa", 10)]

/-- `config.QUADRANT_MODIFIERS`: team-strength multipliers. -/
def QUADRANT_MODIFIERS : List (String × ℚ) :=
  [("Q1", 1.0), ("Q2", 0.90), ("Q3", 0.80), ("Q4", 0.70)]

/-- `config.POSITIONAL_AVGS`: hardcoded positional averages. -/
def POSITIONAL_AVGS : List (String × List (String × ℚ)) :=
  [("G", [("ppg", 13.0), ("rpg", 3.5), ("apg", 3.5), ("spg", 1.2), ("bpg", 0.2),
          ("fg", 43.0), ("threeP", 34.0), ("ft", 75.0), ("tpg", 2.2), ("ato", 1.6)]),
   ("W", [("ppg", 14.0), ("rpg", 5.5), ("apg", 2.0), ("spg", 1.0), ("bpg", 0.6),
          ("fg", 46.0), ("threeP", 35.0), ("ft", 72.0), ("tpg", 1.8), ("ato", 1.1)]),
   ("B", [("ppg", 12.0), ("rpg", 8.5), ("apg", 1.2), ("spg", 0.6), ("bpg", 1.5),
          ("fg", 55.0), ("threeP", 25.0), ("ft", 65.0), ("tpg", 1.8), ("ato", 0.7)])]

/-- `config.V2_WEIGHTS`. -/
def V2_WEIGHTS : List (String × ℚ) :=
  [("bpm", 5.0), ("obpm", 4.0), ("ft", 4.0), ("fta_pg", 3.5),
   ("stl_per", 3.0), ("usg", 3.0), ("dbpm", 2.0),
   ("height", 3.0), ("ws", 3.0), ("weight", 0.6), ("spg", 1.5),
   ("ppg", 0.5), ("rpg", 0.3), ("apg", 0.3), ("bpg", 0.3),
   ("fg", 0.5), ("threeP", 0.2), ("ato", 0.5), ("age", 1.2), ("mpg", 0.3),
   ("ath", 0.0)]

/-- `config.V3_WEIGHTS`. -/
def V3_WEIGHTS : List (String × ℚ) :=
  [("bpm", 5.0), ("ftr", 4.0), ("fta_pg", 3.0), ("fg", 3.2), ("age", 3.0),
   ("height", 2.5), ("rim_pct", 2.5), ("obpm", 2.0), ("dbpm", 1.8),
   ("ft", 1.5), ("rpg", 1.5), ("usg", 1.3),
   ("ppg", 1.0), ("stl_per", 0.8), ("spg", 0.7), ("bpg", 0.7),
   ("tpg", 0.5), ("apg", 0.4), ("ato", 0.5), ("mpg", 0.4), ("tpa", 0.3),
   ("threeP", 0.3),
   ("weight", 0.0), ("ws", 0.0), ("ath", 0.0)]

/-- The inline original weight table of `calculate_similarity`
(the `use_v2=False, use_v3=False` branch). -/
def ORIGINAL_INLINE_WEIGHTS : List (String × ℚ) :=
  [("ppg", 1.0), ("rpg", 1.0), ("apg", 1.0), ("spg", 1.0), ("bpg", 1.0),
   ("fg", 0.8), ("threeP", 2.0), ("ft", 1.5), ("ato", 1.5),
   ("height", 1.5), ("weight", 0.8), ("ws", 1.5), ("ath", 2.0),
   ("age", 1.2), ("mpg", 1.5),
   ("bpm", 1.0), ("obpm", 1.0), ("dbpm", 0.5), ("fta", 0.5),
   ("stl_per", 0.5), ("usg", 0.5)]

/-- `config.STAR_SIGNAL_THRESHOLDS`. -/
def STAR_SIGNAL_THRESHOLDS : List (String × ℚ) :=
  [("bpm", 7.6), ("obpm", 6.9), ("fta", 4.7), ("spg", 1.4),
   ("stl_per", 2.3), ("usg", 25.9), ("ft", 81.3)]

/-- `config.ARCHETYPE_WEIGHT_MODS`. -/
def ARCHETYPE_WEIGHT_MODS : List (String × List (String × ℚ)) :=
  [("Scoring Guard", [("usg", 1.3), ("fta_pg", 1.3), ("obpm", 1.2),
                      ("rpg", 0.5), ("bpg", 0.3)]),
   ("Playmaking Guard", [("apg", 1.5), ("ato", 1.5), ("stl_per", 1.3),
                         ("ppg", 0.5)]),
   ("3&D Wing", [("threeP", 1.5), ("spg", 1.3), ("dbpm", 1.3),
                 ("ppg", 0.5), ("usg", 0.7), ("fta_pg", 0.7)]),
   ("Scoring Wing", [("height", 1.3), ("usg", 1.2), ("fta_pg", 1.2),
                     ("apg", 0.5), ("threeP", 0.7)]),
   ("Skilled Big", [("ft", 1.3), ("obpm", 1.3), ("fg", 1.2),
                    ("apg", 0.5), ("spg", 0.7)]),
   ("Athletic Big", [("dbpm", 1.5), ("bpg", 2.0),
                     ("ft", 0.5), ("threeP", 0.3), ("obpm", 0.7)])]

/-- `config.EXCLUDE_PLAYERS`. -/
def EXCLUDE_PLAYERS : List String :=
  ["Joel Embiid", "Donovan Mitchell", "Larry Johnson", "Emeka Okafor",
   "Isaiah Thomas", "Steve Smith", "Shawn Kemp", "Donyell Marshall", "Vin Baker"]

/-- `config.COMP_YEAR_RANGE`. -/
def COMP_YEAR_RANGE : ℤ × ℤ := (2010, 2021)

/-- `similarity.MAX_PENALTY`. -/
def MAX_PENALTY : ℚ := 25

/-- The body of `range_normalize`, with the two configuration tables it
reads (`STAT_RANGES`, `MAX_STATS`) as explicit parameters. -/
def rnCore (ranges : List (String × ℚ × ℚ)) (maxes : List (String × ℚ))
    (val : ℚ) (key : String) : ℚ :=
  match ranges.lookup key with
  | some (lo, hi) =>
      if hi = lo then 1/2
      else min (max ((val - lo) / (hi - lo)) 0) 1
  | none =>
      let maxVal := (maxes.lookup key).getD 1
      if maxVal ≠ 0 then min (max (val / maxVal) 0) 1 else 0

/-- `similarity.range_normalize`. -/
def range_normalize (val : ℚ) (key : String) : ℚ :=
  rnCore STAT_RANGES MAX_STATS val key

/-- `similarity.get_outlier_multiplier`. -/
def get_outlier_multiplier (val avg : ℚ) : ℚ :=
  if avg = 0 then 1.0
  else
    let ratio := val / avg
    if ratio > 1.4 then 3.0
    else if ratio > 1.2 then 1.5
    else if ratio < 0.7 then 1.5
    else 1.0

/-- A statistics dictionary: each field is an optionally-present number
(`none` = the key is missing from the Python dict). -/
structure Stats where
  ppg : Option ℚ := none
  rpg : Option ℚ := none
  apg : Option ℚ := none
  spg : Option ℚ := none
  bpg : Option ℚ := none
  tpg : Option ℚ := none
  mpg : Option ℚ := none
  gp : Option ℚ := none
  fg : Option ℚ := none
  threeP : Option ℚ := none
  ft : Option ℚ := none
  fta : Option ℚ := none
  usg : Option ℚ := none
  bpm : Option ℚ := none
  obpm : Option ℚ := none
  dbpm : Option ℚ := none
  stl_per : Option ℚ := none
  ftr : Option ℚ := none
  rim_pct : Option ℚ := none
  tpa : Option ℚ := none
  rim_att : Option ℚ := none
  deriving DecidableEq

/-- A flat prospect dictionary: the statistics plus the identity keys the
engine reads at top level (`pos`, `h`, `ws`, `w`, `age`, `quadrant`,
`level`, `name`). -/
structure Player extends Stats where
  name : Option String := none
  pos : Option String := none
  h : Option ℚ := none
  ws : Option ℚ := none
  w : Option ℚ := none
  age : Option ℚ := none
  quadrant : Option String := none
  level : Option String := none
  deriving DecidableEq

/-- A historical database record: identity keys at top level, the
statistics nested under `stats`, plus draft/outcome fields.  `tier` is
accessed by direct indexing (`player["tier"]`) in the source, so it is a
required field here. -/
structure DbPlayer where
  name : Option String := none
  pos : Option String := none
  h : Option ℚ := none
  ws : Option ℚ := none
  w : Option ℚ := none
  age : Option ℚ := none
  quadrant : Option String := none
  draft_year : Option ℤ := none
  has_college_stats : Option Bool := none
  tier : ℤ
  stats : Stats := {}
  deriving DecidableEq

/-- Dynamic string-keyed access into a `Stats` record, embedding
`player.get(stat, ...)` for the keys iterated by name in the source
(`count_star_signals` and the advanced-stat loops). -/
def Stats.get (s : Stats) (key : String) : Option ℚ :=
  if key = "ppg" then s.ppg else if key = "rpg" then s.rpg
  else if key = "apg" then s.apg else if key = "spg" then s.spg
  else if key = "bpg" then s.bpg else if key = "tpg" then s.tpg
  else if key = "mpg" then s.mpg else if key = "gp" then s.gp
  else if key = "fg" then s.fg else if key = "threeP" then s.threeP
  else if key = "ft" then s.ft else if key = "fta" then s.fta
  else if key = "usg" then s.usg else if key = "bpm" then s.bpm
  else if key = "obpm" then s.obpm else if key = "dbpm" then s.dbpm
  else if key = "stl_per" then s.stl_per else if key = "ftr" then s.ftr
  else if key = "rim_pct" then s.rim_pct else if key = "tpa" then s.tpa
  else if key = "rim_att" then s.rim_att
  else none

/-- Lookup in a positional-average table with a default, embedding
`pos_avg.get(key, default)`. -/
def avgGet (avg : List (String × ℚ)) (key : String) (d : ℚ) : ℚ :=
  (avg.lookup key).getD d

/-- `similarity.count_star_signals`: the count and the tags of exceeded
star-signal thresholds, in table order. -/
def count_star_signals (p : Stats) : ℕ × List String :=
  STAR_SIGNAL_THRESHOLDS.foldl
    (fun acc st =>
      let val := (p.get st.1).getD 0
      if val > st.2 then (acc.1 + 1, acc.2 ++ [st.1]) else acc)
    (0, [])

/-- `similarity.detect_unicorn_traits` (the `pos_avg` argument is unused in
the source body and omitted here). -/
def detect_unicorn_traits (p : Player) : List String :=
  let pos := p.pos.getD "W"
  let ppg := p.ppg.getD 0
  let rpg := p.rpg.getD 0
  let apg := p.apg.getD 0
  let bpg := p.bpg.getD 0
  let spg := p.spg.getD 0
  let threeP := p.threeP.getD 0
  let h := p.h.getD 78
  (if pos = "G" ∧ rpg > 7.0 then ["rebounding_guard"] else []) ++
  (if pos = "B" ∧ apg > 3.5 then ["passing_big"] else []) ++
  (if pos = "B" ∧ threeP > 33 ∧ ppg > 10 then ["stretch_big"] else []) ++
  (if (pos = "G" ∨ pos = "W") ∧ bpg > 1.5 then ["shot_blocking_wing"] else []) ++
  (if pos = "G" ∧ h > 77 ∧ apg > 4 then ["tall_playmaker"] else []) ++
  (if pos = "G" ∧ h < 75 ∧ spg > 2.0 then ["pickpocket"] else []) ++
  (if (pos = "W" ∨ pos = "B") ∧ spg > 1.8 then ["defensive_unicorn"] else [])

/-- Rounding to one decimal, embedding Python's `round(x, 1)` (Python
rounds half to even; this differs from `round` only at exact `.05` ties,
which no statement below touches). -/
def roundTo1 (q : ℚ) : ℚ := (round (q * 10) : ℤ) / 10

/-- Rounding to an integer value, embedding Python's `round(x, 0)`. -/
def roundTo0 (q : ℚ) : ℚ := (round q : ℤ)

/-- `QUADRANT_MODIFIERS.get(quadrant, 1.0)`. -/
def quadMod (q : String) : ℚ := (QUADRANT_MODIFIERS.lookup q).getD 1.0

/-- `predict_tier`'s advanced-stat presence test:
`any(player.get(s, 0) for s in ["bpm", "obpm", "fta", "stl_per", "usg"])`.
A value is "present" exactly when the `get` with default 0 is nonzero, so a
stored zero counts as absent. -/
def hasAdvanced (p : Player) : Bool :=
  ["bpm", "obpm", "fta", "stl_per", "usg"].any fun s => (p.toStats.get s).getD 0 ≠ 0

/-- The proxy rule set of `predict_tier`'s missing-advanced-stats fallback
(scoring+touch, FTA rate, steals): the proxy points awarded and the reasons
appended. -/
def proxyPoints (p : Player) : ℚ × List String :=
  let quad_mod := quadMod (p.quadrant.getD "Q1")
  let adj_ppg := p.ppg.getD 0 * quad_mod
  let ft_pct := pyOr (p.ft.getD 70) 70
  let fta_pg := p.fta.getD 0
  let spg := p.spg.getD 0
  let pr1 : ℚ × List String :=
    if adj_ppg ≥ 20 ∧ ft_pct ≥ 78 then (12, ["Scoring profile suggests high impact"])
    else if adj_ppg ≥ 16 ∧ ft_pct ≥ 75 then (6, ["Solid scoring profile with respectable touch"])
    else (0, [])
  let pr2 : ℚ × List String :=
    if fta_pg ≥ 5.5 then (8, ["Gets to the foul line at a high rate"])
    else if fta_pg ≥ 3.5 then (4, [])
    else (0, [])
  let pr3 : ℚ := if spg ≥ 1.8 then 4 else 0
  (pr1.1 + pr2.1 + pr3, pr1.2 ++ pr2.2)

/-- The first half of the rule sequence of `predict_tier` (source order:
adjusted BPM/OBPM/DBPM staircases, FTA per game, FT rate, rim finishing,
steals, usage, FT% penalty): the accumulated score and reasons. -/
def baseRulesA (p : Player) : ℚ × List String :=
  let bpm := p.bpm.getD 0
  let obpm := p.obpm.getD 0
  let dbpm := p.dbpm.getD 0
  let fta := p.fta.getD 0
  let spg := p.spg.getD 0
  let stl_per := p.stl_per.getD 0
  let usg := p.usg.getD 0
  let quadrant := p.quadrant.getD "Q1"
  let ftr := p.ftr.getD 0
  let rim_pct := p.rim_pct.getD 0
  let pos := p.pos.getD "W"
  let quad_mod := quadMod quadrant
  let adj_bpm := bpm * quad_mod
  let adj_obpm := obpm * quad_mod
  let s1 : ℚ × List String :=
    if adj_bpm ≥ 12 then (20, ["Dominant all-around impact"])
    else if adj_bpm ≥ 8 then (14, ["Strong all-around impact"])
    else if adj_bpm ≥ 5 then (9, ["Solid overall impact"])
    else if adj_bpm ≥ 3 then (5, ["Moderate overall impact"])
    else if adj_bpm ≥ 0 then (2, [])
    else if adj_bpm ≥ -2 then (-3, [])
    else (-8, ["Negative overall impact"])
  let s2 : ℚ × List String :=
    if adj_obpm > 0 then
      if adj_obpm ≥ 7 then (16, ["Elite offensive creation"])
      else if adj_obpm ≥ 5 then (11, ["Strong offensive creation"])
      else if adj_obpm ≥ 3 then (7, ["Good offensive creation"])
      else if adj_obpm ≥ 1 then (3, [])
      else (0, [])
    else (0, [])
  let s3 : ℚ × List String :=
    if dbpm > 0 then
      if dbpm ≥ 4 then (8, ["Defensive playmaking signals"])
      else if dbpm ≥ 2.5 then (4, [])
      else (0, [])
    else (0, [])
  let fta_pg := fta
  let s4 : ℚ × List String :=
    if fta_pg ≥ 7 then (16, ["Free throw rate indicates scoring scalability"])
    else if fta_pg ≥ 5.5 then (10, ["Good free throw rate"])
    else if fta_pg ≥ 4 then (5, [])
    else if fta_pg ≥ 2.5 then (2, [])
    else (0, [])
  let s5 : ℚ × List String :=
    if ftr > 0 then
      if ftr ≥ 50 then (8, ["Aggressive scorer, draws fouls at an elite rate"])
      else if ftr ≥ 42 then (4, [])
      else if ftr ≥ 35 then (1, [])
      else (0, [])
    else (0, [])
  let s6 : ℚ × List String :=
    if rim_pct > 0 then
      if rim_pct ≥ 72 then (6, ["Finishes at the rim at an elite rate"])
      else if rim_pct ≥ 65 then (3, [])
      else if rim_pct < 55 then (-3, ["Struggles finishing at the rim"])
      else (0, [])
    else (0, [])
  let s7 : ℚ × List String :=
    if stl_per > 0 then
      if stl_per ≥ 2.5 then (8, ["Defensive playmaking, elite ball-hawk instincts"])
      else if stl_per ≥ 1.8 then (4, [])
      else (0, [])
    else
      if spg ≥ 1.8 then (8, ["Defensive playmaking, active hands and anticipation"])
      else if spg ≥ 1.3 then (4, [])
      else (0, [])
  let s8 : ℚ × List String :=
    if usg > 0 then
      if usg ≥ 30 then (8, ["High-volume role"])
      else if usg ≥ 27 then (5, [])
      else if usg ≥ 24 then (2, [])
      else (0, [])
    else (0, [])
  let ft_pct := pyOr (p.ft.getD 70) 70
  let ft_weight : ℚ := if pos = "G" ∨ pos = "W" then 1.0 else 0.4
  let ftRule : ℚ × List String :=
    if ft_pct ≥ 70 then (0, [])
    else if ft_pct ≥ 60 then (-6, ["Concerning free throw shooting"])
    else (-12, ["Free throw shooting is a major concern"])
  let s9 : ℚ := ftRule.1 * ft_weight
  (s1.1 + s2.1 + s3.1 + s4.1 + s5.1 + s6.1 + s7.1 + s8.1 + s9,
   s1.2 ++ s2.2 ++ s3.2 ++ s4.2 ++ s5.2 ++ s6.2 ++ s7.2 ++ s8.2 ++ ftRule.2)

/-- The second half of the rule sequence of `predict_tier` (source order:
adjusted PPG, rebounding for position, efficiency with volume, 3PA volume
context, star-signal count, unicorn bonus, team-strength penalty, minutes
context, height filter): the accumulated score and reasons. -/
def baseRulesB (p : Player) : ℚ × List String :=
  let ppg := p.ppg.getD 0
  let rpg := p.rpg.getD 0
  let mpg := pyOr (p.mpg.getD 30) 30
  let quadrant := p.quadrant.getD "Q1"
  let fg := pyOr (p.fg.getD 45) 45
  let tpa := p.tpa.getD 0
  let pos := p.pos.getD "W"
  let starCount := (count_star_signals p.toStats).1
  let unicorns := detect_unicorn_traits p
  let quad_mod := quadMod quadrant
  let adj_ppg := ppg * quad_mod
  let s10 : ℚ × List String :=
    if adj_ppg ≥ 20 then (8, ["High-level scorer"])
    else if adj_ppg ≥ 16 then (4, [])
    else if adj_ppg ≥ 12 then (1, [])
    else (0, [])
  let s11 : ℚ × List String :=
    if pos = "G" ∧ rpg ≥ 6 then (4, ["Rebounding guard"])
    else if (pos = "W" ∨ pos = "B") ∧ rpg ≥ 9 then (4, [])
    else if rpg ≥ 5 then (1, [])
    else (0, [])
  let s12 : ℚ × List String :=
    if fg ≥ 52 ∧ adj_ppg ≥ 15 then (4, ["Efficient production at moderate-to-high usage"])
    else (0, [])
  let threeP := p.threeP.getD 0
  let s13 : ℚ × List String :=
    if tpa > 0 ∧ threeP > 0 then
      if tpa ≥ 5 ∧ threeP ≥ 35 then (4, ["Proven 3-point shooter on volume"])
      else if tpa ≥ 3 ∧ threeP ≥ 37 then (2, [])
      else (0, [])
    else (0, [])
  let s14 : ℚ × List String :=
    if starCount ≥ 5 then (12, ["Strong star profile"])
    else if starCount ≥ 3 then (6, ["Promising star profile"])
    else if starCount ≥ 2 then (2, [])
    else (0, [])
  let s15 : ℚ × List String :=
    if unicorns ≠ [] then (3 * (unicorns.length : ℚ), ["Rare statistical outlier"])
    else (0, [])
  let s16 : ℚ × List String :=
    if quadrant = "Q2" then (-3, [])
    else if quadrant = "Q3" then (-7, ["Competition level discount, mid-tier program"])
    else if quadrant = "Q4" then (-12, ["Competition level discount, low-tier program"])
    else (0, [])
  let s17 : ℚ × List String :=
    if mpg < 22 then (-5, ["Limited sample size"]) else (0, [])
  let h := pyOr (p.h.getD 78) 78
  let s18 : ℚ × List String :=
    if pos = "G" ∧ h < 73 then (-10, ["Size concern: very undersized guard"])
    else if pos = "G" ∧ h < 74 then (-5, ["Size concern: undersized guard"])
    else if pos = "W" ∧ h < 76 then (-8, ["Size concern: undersized wing"])
    else (0, [])
  (s10.1 + s11.1 + s12.1 + s13.1 + s14.1 + s15.1 + s16.1 + s17.1 + s18.1,
   s10.2 ++ s11.2 ++ s12.2 ++ s13.2 ++ s14.2 ++ s15.2 ++ s16.2 ++ s17.2 ++ s18.2)

/-- The full rule sequence of `predict_tier` up to (and excluding) the
missing-advanced-stats fallback: the accumulated score and reasons. -/
def baseScoreAndReasons (p : Player) : ℚ × List String :=
  ((baseRulesA p).1 + (baseRulesB p).1, (baseRulesA p).2 ++ (baseRulesB p).2)

/-- The score and reasons of `predict_tier` immediately after the
missing-advanced-stats fallback block (the point at which the 40-point cap
is applied), before the class-year signal and the red-flag rules. -/
def scoreAfterFallback (p : Player) : ℚ × List String :=
  let base := baseScoreAndReasons p
  if hasAdvanced p then base
  else
    let proxy := proxyPoints p
    let s := base.1 + proxy.1
    let rs := base.2 ++ proxy.2
    if proxy.1 = 0 ∧ s > 40 then
      ((40 : ℚ), rs ++ ["Projection capped, add advanced stats for full accuracy"])
    else (s, rs)

/-- The final score-to-tier staircase of `predict_tier` together with the
pre-clamp confidence value. -/
def tierOfScore (score : ℚ) : ℤ × ℚ :=
  if score ≥ 80 then (1, min 95 (60 + score - 80))
  else if score ≥ 54 then (2, 50 + (score - 54))
  else if score ≥ 40 then (3, 40 + (score - 40))
  else if score ≥ 22 then (4, 35 + (score - 22))
  else (5, 30 + max 0 (22 - score))

/-- The output record of `predict_tier`. -/
structure TierPrediction where
  tier : ℤ
  score : ℚ
  confidence : ℚ
  reasons : List String
  star_signals : ℕ
  star_signal_tags : List String
  unicorn_traits : List String
  has_advanced_stats : Bool
  deriving DecidableEq

/-- `similarity.predict_tier`.  The `pos_avgs` parameter of the source only
feeds `detect_unicorn_traits`, which never reads it, so it is omitted.
The first stage (`scoreAfterFallback`) covers every rule through the
missing-advanced-stats fallback; the class-year signal and the six
red-flag rules follow it, exactly as in the source. -/
def predict_tier (p : Player) : TierPrediction :=
  let stage1 := scoreAfterFallback p
  let class_yr := p.age.getD 0
  let s19 : ℚ × List String :=
    if class_yr = 1 then (6, ["Freshman declaring"])
    else if class_yr = 2 then (1, [])
    else if class_yr = 3 then (-2, ["Junior, later declaration"])
    else if class_yr = 4 then (-5, ["Senior, four-year player"])
    else (0, [])
  let has_advanced := hasAdvanced p
  let quadrant := p.quadrant.getD "Q1"
  let quad_mod := quadMod quadrant
  let bpm := p.bpm.getD 0
  let obpm := p.obpm.getD 0
  let dbpm := p.dbpm.getD 0
  let usg := p.usg.getD 0
  let fta_pg := p.fta.getD 0
  let adj_bpm := bpm * quad_mod
  let adj_ppg := p.ppg.getD 0 * quad_mod
  let fg := pyOr (p.fg.getD 45) 45
  let s20 : ℚ × List String :=
    if has_advanced ∧ usg ≥ 24 ∧ adj_bpm < 6 then
      let gap_severity := (24 - adj_bpm) / 4
      let ec_penalty : ℚ := min 10 ((round ((4 : ℚ) + gap_severity * 4) : ℤ) : ℚ)
      (-ec_penalty, ["Concern: high usage without proportional impact"])
    else (0, [])
  let s21 : ℚ × List String :=
    if has_advanced ∧ obpm ≥ 5 ∧ dbpm < 1 then
      (-6, ["Concern: offensive production with no defensive contribution"])
    else (0, [])
  let s22 : ℚ × List String :=
    if adj_ppg ≥ 14 ∧ fg < 46 then
      (-8, ["Concern: scoring volume without efficiency"])
    else (0, [])
  let s23 : ℚ × List String :=
    if has_advanced ∧ usg ≥ 24 ∧ fta_pg < 3 then
      (-6, ["Concern: high usage but rarely gets to the foul line"])
    else (0, [])
  let s24 : ℚ × List String :=
    if class_yr = 4 ∧ adj_ppg ≥ 14 then (-6, ["Concern: senior scorer"])
    else (0, [])
  let s25 : ℚ × List String :=
    if class_yr = 4 ∧ has_advanced ∧ adj_bpm ≥ 7 then
      (-3, ["Concern: strong senior production may represent a peak"])
    else (0, [])
  let s26 : ℚ × List String :=
    if (quadrant = "Q3" ∨ quadrant = "Q4") ∧ has_advanced ∧ bpm ≥ 8 then
      (if quadrant = "Q3" then (-5 : ℚ) else -8,
       ["Concern: inflated stats from weak competition"])
    else (0, [])
  let score := stage1.1 + s19.1 + s20.1 + s21.1 + s22.1 + s23.1 + s24.1 + s25.1 + s26.1
  let reasons := stage1.2 ++ s19.2 ++ s20.2 ++ s21.2 ++ s22.2 ++ s23.2 ++ s24.2 ++
    s25.2 ++ s26.2
  let tc := tierOfScore score
  { tier := tc.1
    score := roundTo1 score
    confidence := roundTo0 (min tc.2 95)
    reasons := reasons
    star_signals := (count_star_signals p.toStats).1
    star_signal_tags := (count_star_signals p.toStats).2
    unicorn_traits := detect_unicorn_traits p
    has_advanced_stats := has_advanced }

/-- Stable-descending-sort top two of a scored list (embedding
`sorted(scores.items(), key=lambda x: -x[1])` restricted to the two entries
the source reads): the first maximum wins ties, and the runner-up is the
first maximum of the list with the winner removed. -/
def rankedTop2 (l : List (String × ℚ)) : (String × ℚ) × (String × ℚ) :=
  match l with
  | [] => (("", 0), ("", 0))
  | x :: xs =>
    let best := xs.foldl (fun acc y => if y.2 > acc.2 then y else acc) x
    let rest := (x :: xs).eraseP (fun y => y.1 == best.1)
    let second :=
      match rest with
      | [] => ("", 0)
      | z :: zs => zs.foldl (fun acc y => if y.2 > acc.2 then y else acc) z
    (best, second)

/-- The body of `classify_archetype` after its two dict shapes have been
resolved: the stat block `s`, the top-level position and the top-level
height.  Returns (primary, primary score, secondary). -/
def classifyCore (s : Stats) (pos : String) (h : ℚ) : String × ℚ × String :=
  let ppg := s.ppg.getD 0
  let rpg := s.rpg.getD 0
  let apg := s.apg.getD 0
  let spg := s.spg.getD 0
  let bpg := s.bpg.getD 0
  let tpg := s.tpg.getD 0
  let fg := pyOr (s.fg.getD 45) 45
  let threeP := pyOr (s.threeP.getD 33) 33
  let ft := pyOr (s.ft.getD 70) 70
  let fta := s.fta.getD 0
  let usg := s.usg.getD 0
  let bpm := s.bpm.getD 0
  let obpm := s.obpm.getD 0
  let dbpm := s.dbpm.getD 0
  let rim_att := s.rim_att.getD 0
  let stl_per := s.stl_per.getD 0
  let ato := if tpg > 0 then apg / tpg else apg
  let fta_pg := fta
  let guard_like :=
    pos = "W" ∧ (h ≤ 76 ∨ (h ≤ 78 ∧ (apg ≥ 3.5 ∨ (ppg ≥ 18 ∧ rpg < 5))))
  let sg_score : ℚ :=
    (if pos = "G" then 12 else if guard_like then 8 else 0) +
    (if ppg ≥ 20 then 10 else if ppg ≥ 16 then 6 else if ppg ≥ 12 then 3 else 0) +
    (if usg ≥ 28 then 6 else if usg ≥ 24 then 3 else 0) +
    (if fta_pg ≥ 5 then 4 else if fta_pg ≥ 3 then 2 else 0) +
    (if ft ≥ 78 then 3 else 0) +
    (if threeP ≥ 35 then 2 else 0) +
    (if apg ≥ 4 then 2 else 0)
  let pg_score : ℚ :=
    (if pos = "G" then 12
     else if guard_like ∧ apg ≥ 3 then 8
     else if pos = "W" ∧ apg ≥ 5 then 6 else 0) +
    (if apg ≥ 6 then 10 else if apg ≥ 4.5 then 7 else if apg ≥ 3.5 then 4
     else if apg ≥ 2.5 then 2 else 0) +
    (if ato ≥ 2.5 then 6 else if ato ≥ 1.8 then 4 else if ato ≥ 1.3 then 2 else 0) +
    (if spg ≥ 1.5 then 3 else 0) +
    (if stl_per ≥ 2.5 then 3 else 0) +
    (if ppg < 14 then 2 else 0)
  let td_score : ℚ :=
    (if pos = "W" then 8 else if pos = "G" ∧ h ≥ 76 then 4 else 0) +
    (if threeP ≥ 38 then 7 else if threeP ≥ 35 then 5 else if threeP ≥ 33 then 3 else 0) +
    (if ft ≥ 78 then 3 else if ft ≥ 73 then 1 else 0) +
    (if spg ≥ 1.5 then 5 else if spg ≥ 1.0 then 3 else if spg ≥ 0.8 then 1 else 0) +
    (if bpg ≥ 0.8 then 2 else 0) +
    (if dbpm ≥ 3.0 then 3 else if dbpm ≥ 1.5 then 1 else 0) +
    (if ppg < 12 then 3 else if ppg < 15 then 1 else if ppg ≥ 20 then -5
     else if ppg ≥ 18 then -3 else 0)
  let sw_score : ℚ :=
    (if pos = "W" then 10 else if pos = "B" ∧ h ≤ 81 then 5
     else if pos = "G" ∧ h ≥ 77 then 5 else 0) +
    (if ppg ≥ 20 then 10 else if ppg ≥ 16 then 7 else if ppg ≥ 13 then 4
     else if ppg ≥ 10 then 1 else 0) +
    (if usg ≥ 28 then 6 else if usg ≥ 24 then 4 else if usg ≥ 20 then 2 else 0) +
    (if fta_pg ≥ 5 then 4 else if fta_pg ≥ 3 then 2 else 0) +
    (if h ≥ 79 then 3 else if h ≥ 77 then 1 else 0) +
    (if rpg ≥ 7 then 3 else if rpg ≥ 5 then 1 else 0)
  let sb_score : ℚ :=
    (if pos = "B" then 10 else if pos = "W" ∧ h ≥ 81 then 5 else 0) +
    (if ft ≥ 78 then 8 else if ft ≥ 72 then 6 else if ft ≥ 65 then 3 else 0) +
    (if threeP ≥ 33 then 6 else if threeP ≥ 25 then 3 else if threeP ≥ 15 then 1 else 0) +
    (if rpg ≥ 8 then 3 else if rpg ≥ 6 then 1 else 0) +
    (if bpm ≥ 6 then 4 else if bpm ≥ 3 then 2 else 0) +
    (if obpm ≥ 4 then 4 else if obpm ≥ 2 then 2 else 0) +
    (if ppg ≥ 15 then 2 else 0)
  let ab_score : ℚ :=
    (if pos = "B" then 10 else if pos = "W" ∧ h ≥ 82 then 5 else 0) +
    (if bpg ≥ 2.5 then 8 else if bpg ≥ 1.5 then 5 else if bpg ≥ 1.0 then 3 else 0) +
    (if rim_att ≥ 4.0 then 6 else if rim_att ≥ 2.5 then 4 else if rim_att ≥ 1.0 then 2 else 0) +
    (if rpg ≥ 9 then 5 else if rpg ≥ 7 then 3 else if rpg ≥ 5 then 1 else 0) +
    (if dbpm ≥ 5 then 5 else if dbpm ≥ 3 then 3 else if dbpm ≥ 1 then 1 else 0) +
    (if ft < 55 then 4 else if ft < 65 then 2 else if ft ≥ 78 then -4
     else if ft ≥ 72 then -2 else 0)
  let items : List (String × ℚ) :=
    [("Scoring Guard", sg_score), ("Playmaking Guard", pg_score),
     ("3&D Wing", td_score), ("Scoring Wing", sw_score),
     ("Skilled Big", sb_score), ("Athletic Big", ab_score)]
  let top2 := rankedTop2 items
  (top2.1.1, top2.1.2, top2.2.1)

/-- `classify_archetype` on a flat prospect dict (the source's
`else` branch: stats at top level). -/
def classify_archetype (p : Player) : String × ℚ × String :=
  classifyCore p.toStats (p.pos.getD "W") (p.h.getD 78)

/-- `classify_archetype` on a database record (the source's
`"stats" in player` branch: stats nested, position and height top-level). -/
def classify_archetype_db (p : DbPlayer) : String × ℚ × String :=
  classifyCore p.stats (p.pos.getD "W") (p.h.getD 78)

/-- The six counting stats fed to the per-30 normalization. -/
structure Counting where
  ppg : ℚ
  rpg : ℚ
  apg : ℚ
  spg : ℚ
  bpg : ℚ
  tpg : ℚ
  deriving DecidableEq

/-- `similarity.normalize_to_30`: damped per-30-minute scaling. -/
def normalize_to_30 (c : Counting) (mpg0 : ℚ) : Counting :=
  let mpg := pyOr mpg0 30
  let factor := 30 / mpg
  let damped0 := 1 + (factor - 1) * 0.7
  let damped := if mpg < 22 then damped0 * (0.88 + 0.12 * (mpg / 22)) else damped0
  { ppg := c.ppg * damped, rpg := c.rpg * damped, apg := c.apg * damped,
    spg := c.spg * damped, bpg := c.bpg * damped, tpg := c.tpg * damped }

/-- The counting stats of a stat block with the engine's `get(key, 0)`
defaults. -/
def countingOfStats (s : Stats) : Counting :=
  { ppg := s.ppg.getD 0, rpg := s.rpg.getD 0, apg := s.apg.getD 0,
    spg := s.spg.getD 0, bpg := s.bpg.getD 0, tpg := s.tpg.getD 0 }

/-- The team-strength-adjusted per-30 stats (`adj_a` / `adj_b` in the
source): the quadrant modifier applies to scoring only. -/
structure Adj where
  ppg : ℚ
  rpg : ℚ
  apg : ℚ
  spg : ℚ
  bpg : ℚ
  deriving DecidableEq

/-- `adj_a` of `calculate_similarity`: per-30 normalization of the
prospect's counting stats, then the quadrant modifier on scoring. -/
def adjStatsA (a : Player) : Adj :=
  let per30 := normalize_to_30 (countingOfStats a.toStats) (a.mpg.getD 30)
  let qm := quadMod (a.quadrant.getD "Q1")
  { ppg := per30.ppg * qm, rpg := per30.rpg, apg := per30.apg,
    spg := per30.spg, bpg := per30.bpg }

/-- `adj_b` of `calculate_similarity`: the same for the candidate's nested
stat block and top-level quadrant. -/
def adjStatsB (b : DbPlayer) : Adj :=
  let per30 := normalize_to_30 (countingOfStats b.stats) (b.stats.mpg.getD 30)
  let qm := quadMod (b.quadrant.getD "Q1")
  { ppg := per30.ppg * qm, rpg := per30.rpg, apg := per30.apg,
    spg := per30.spg, bpg := per30.bpg }

/-- Assist-to-turnover ratio with the source's zero-turnover guard. -/
def atoOf (apg tpg : ℚ) : ℚ := if tpg > 0 then apg / tpg else apg

/-- `similarity.calculate_identity_map`: outlier multipliers against
positional averages. -/
structure IdentityMap where
  ppg : ℚ
  rpg : ℚ
  apg : ℚ
  spg : ℚ
  bpg : ℚ
  threeP : ℚ
  ft : ℚ
  ato : ℚ
  deriving DecidableEq

/-- `similarity.calculate_identity_map`. -/
def calculate_identity_map (adj_a : Adj) (a : Player) (input_ato : ℚ)
    (pos_avg : List (String × ℚ)) : IdentityMap :=
  { ppg := get_outlier_multiplier adj_a.ppg (avgGet pos_avg "ppg" 13)
    rpg := get_outlier_multiplier adj_a.rpg (avgGet pos_avg "rpg" 5)
    apg := get_outlier_multiplier adj_a.apg (avgGet pos_avg "apg" 2.5)
    spg := get_outlier_multiplier adj_a.spg (avgGet pos_avg "spg" 1)
    bpg := get_outlier_multiplier adj_a.bpg (avgGet pos_avg "bpg" 0.5)
    threeP := get_outlier_multiplier (a.threeP.getD 33) (avgGet pos_avg "threeP" 33)
    ft := get_outlier_multiplier (a.ft.getD 70) (avgGet pos_avg "ft" 70)
    ato := get_outlier_multiplier input_ato (avgGet pos_avg "ato" 1.25) }

/-- The prospect's positional-average row:
`pos_avgs.get(pos, pos_avgs.get("W", POSITIONAL_AVGS.get("W", \x7b\x7d)))`. -/
def posAvgFor (posAvgs : List (String × List (String × ℚ))) (pos : String) :
    List (String × ℚ) :=
  (posAvgs.lookup pos).getD
    ((posAvgs.lookup "W").getD ((POSITIONAL_AVGS.lookup "W").getD []))

/-- The base weight table selected by the flags:
`use_v3=True > use_v2=True > original weights`. -/
def baseWeightsFor (useV2 useV3 : Bool) : List (String × ℚ) :=
  if useV3 then V3_WEIGHTS else if useV2 then V2_WEIGHTS else ORIGINAL_INLINE_WEIGHTS

/-- Archetype weight modifiers applied to the base table: each listed stat
that exists in the base table is multiplied by its modifier. -/
def applyWeightMods (bw : List (String × ℚ)) (mods : List (String × ℚ)) :
    List (String × ℚ) :=
  mods.foldl
    (fun acc sm => acc.map (fun kv => if kv.1 = sm.1 then (kv.1, kv.2 * sm.2) else kv))
    bw

/-- `base_weights.get(key, default)`. -/
def weightGet (w : List (String × ℚ)) (k : String) (d : ℚ) : ℚ :=
  (w.lookup k).getD d

/-- The dynamic weight vector of `calculate_similarity` (base weights ×
identity-map outlier multipliers, with the wingspan multiplier, the
disabled weight entry and the defensive-specialist scoring override). -/
structure DynWeights where
  ppg : ℚ
  rpg : ℚ
  apg : ℚ
  spg : ℚ
  bpg : ℚ
  fg : ℚ
  threeP : ℚ
  ft : ℚ
  ato : ℚ
  height : ℚ
  weight : ℚ
  ws : ℚ
  age : ℚ
  mpg : ℚ
  bpm : ℚ
  obpm : ℚ
  dbpm : ℚ
  fta_pg : ℚ
  stl_per : ℚ
  usg : ℚ
  ftr : ℚ
  rim_pct : ℚ
  tpa : ℚ
  deriving DecidableEq

/-- The dynamic-weight construction of `calculate_similarity`. -/
def dynWeightsOf (bw : List (String × ℚ)) (im : IdentityMap) (a : Player)
    (pos_avg : List (String × ℚ)) (useV3 : Bool) (adj_a : Adj) : DynWeights :=
  let ws_a := a.ws.getD (a.h.getD 78 + 4)
  let h_a := a.h.getD 78
  let ws_multiplier : ℚ :=
    if useV3 then 1.0 else if h_a > 0 ∧ ws_a / h_a ≥ 1.06 then 2.5 else 1.0
  let ppg_weight0 := weightGet bw "ppg" 1.0 * im.ppg
  let stocks := adj_a.spg + adj_a.bpg
  let ppg_weight := if stocks > 2.5 ∧ adj_a.ppg < 10.0 then 0.3 else ppg_weight0
  { ppg := ppg_weight
    rpg := weightGet bw "rpg" 0.8 * im.rpg
    apg := weightGet bw "apg" 0.8 * im.apg
    spg := weightGet bw "spg" 1.8 * im.spg
    bpg := weightGet bw "bpg" 0.5 * im.bpg
    fg := weightGet bw "fg" 0.5 *
      get_outlier_multiplier (a.fg.getD 45) (avgGet pos_avg "fg" 45)
    threeP := weightGet bw "threeP" 0.5 * im.threeP
    ft := weightGet bw "ft" 0.4 * im.ft
    ato := weightGet bw "ato" 0.8 * im.ato
    height := weightGet bw "height" 1.5
    weight := 0
    ws := weightGet bw "ws" 1.5 * ws_multiplier
    age := weightGet bw "age" 1.2
    mpg := weightGet bw "mpg" 1.0
    bpm := weightGet bw "bpm" 2.5
    obpm := weightGet bw "obpm" 2.0
    dbpm := weightGet bw "dbpm" 1.0
    fta_pg := weightGet bw "fta_pg" 3.5
    stl_per := weightGet bw "stl_per" 1.5
    usg := weightGet bw "usg" 1.0
    ftr := weightGet bw "ftr" 2.5
    rim_pct := weightGet bw "rim_pct" 2.0
    tpa := weightGet bw "tpa" 0.3 }

/-- The position-gap penalty of `calculate_similarity`, including the two
unicorn exceptions (note the exceptions test the per-30-adjusted `adj_a`
assists and rebounds, and test `player.get("pos")` with no default). -/
def posGapPenalty (a : Player) (b : DbPlayer) (adj_a : Adj) : ℚ :=
  let s_a := a.pos.getD "W"
  let s_b := b.pos.getD "W"
  let pos_a : ℤ := if s_a = "G" then 0 else if s_a = "W" then 1 else if s_a = "B" then 2 else 1
  let pos_b : ℤ := if s_b = "G" then 0 else if s_b = "W" then 1 else if s_b = "B" then 2 else 1
  let pos_diff := |pos_a - pos_b|
  let p0 : ℚ := if pos_diff = 2 then 15 else if pos_diff = 1 then 5 else 0
  let p1 : ℚ :=
    if a.pos = some "B" ∧ adj_a.apg > 4.0 ∧ (b.pos = some "G" ∨ b.pos = some "W")
    then 0 else p0
  if a.pos = some "G" ∧ adj_a.rpg > 7.0 ∧ (b.pos = some "W" ∨ b.pos = some "B")
  then 0 else p1

/-- All penalty rules of `calculate_similarity`, before the cap: the raw
penalty sum and the reason labels, in source order. -/
def penaltyAndReasons (a : Player) (b : DbPlayer) (adj_a adj_b : Adj) :
    ℚ × List String :=
  let pg := posGapPenalty a b adj_a
  let pgR : List String := if pg > 0 then ["Position gap"] else []
  let chucker : ℚ × List String :=
    if adj_a.ppg > 18.0 ∧ a.fg.getD 45 < 42.0 ∧ b.stats.fg.getD 45 > 48.0 then
      (8, ["Chucker vs efficient"])
    else (0, [])
  let broken : ℚ × List String :=
    if a.ft.getD 70 < 55.0 ∧ b.stats.ft.getD 70 > 72.0 then
      (8, ["Broken shot mismatch"])
    else (0, [])
  let input_usage := adj_a.ppg + adj_a.apg
  let match_usage := adj_b.ppg + adj_b.apg
  let usageGap : ℚ × List String :=
    if input_usage < 12.0 ∧ match_usage > 25.0 then (8, ["Usage gap"]) else (0, [])
  let h_a := a.h.getD 78
  let h_b := b.h.getD 78
  let heightMis : ℚ × List String :=
    if |h_a - h_b| > 4 then (10, ["Height mismatch"]) else (0, [])
  let fg_a := a.fg.getD 45
  let fg_b := b.stats.fg.getD 45
  let lowVol : ℚ × List String :=
    if fg_a > 50 ∧ adj_a.ppg < 10 ∧ fg_b > 50 ∧ adj_b.ppg > 18 then
      (5, ["Low-volume efficiency mismatch"])
    else (0, [])
  let three_a := a.threeP.getD 33
  let three_b := b.stats.threeP.getD 33
  let threeMis : ℚ × List String :=
    if (three_a > 40.0 ∧ three_b < 28.0) ∨ (three_a < 25.0 ∧ three_b > 40.0) then
      (5, ["Shooting archetype mismatch"])
    else (0, [])
  (pg + chucker.1 + broken.1 + usageGap.1 + heightMis.1 + lowVol.1 + threeMis.1,
   pgR ++ chucker.2 ++ broken.2 ++ usageGap.2 ++ heightMis.2 ++ lowVol.2 ++ threeMis.2)

/-- One advanced-stat distance term of `calculate_similarity`: compared at
full weight when both values (after `get(stat, 0)`) are nonzero, replaced
by the neutral-midpoint half-weight substitution when only the prospect's
is nonzero, and omitted otherwise. -/
def advTerm (k : String) (va vb w : ℚ) : List (String × ℚ) :=
  if va ≠ 0 ∧ vb ≠ 0 then
    [(k, (range_normalize va k - range_normalize vb k) ^ 2 * w)]
  else if va ≠ 0 ∧ vb = 0 then
    [(k, (range_normalize va k - 0.5) ^ 2 * w * 0.5)]
  else []

/-- The output record of `calculate_similarity`.  The Python dict also
carries the raw weight vector and identity map (pure echoes of
`dynWeightsOf` / `calculate_identity_map`) and display-rounded copies of
the per-stat diffs; the diffs here are the unrounded values whose sum the
source feeds to `math.sqrt`. -/
structure SimResult where
  diffs : List (String × ℚ)
  penalty : ℚ
  penalty_reasons : List String
  input_ato : ℚ
  db_ato : ℚ
  star_signals : ℕ
  unicorn_traits : List String
  deriving DecidableEq

/-- The summed weighted squared differences (`sum(diffs.values())`). -/
def SimResult.S (r : SimResult) : ℚ := (r.diffs.map Prod.snd).sum

/-- The final similarity score:
`max(0, 100 - sqrt(S)/6*100)` minus the capped penalty, clamped at 0.
(The Python dict stores `round(similarity, 1)` of this value; the claims
below concern its bounds, which rounding preserves.) -/
noncomputable def SimResult.score (r : SimResult) : ℝ :=
  let raw_dist := Real.sqrt (r.S : ℝ)
  let similarity := max 0 (100 - raw_dist / 6 * 100)
  max 0 (similarity - (r.penalty : ℝ))

/-- The fourteen always-present distance terms of `calculate_similarity`
(core counting stats, shooting percentages, physicals, age, minutes), in
source order. -/
def coreDiffs (a : Player) (b : DbPlayer) (adj_a adj_b : Adj)
    (input_ato db_ato : ℚ) (dw : DynWeights) : List (String × ℚ) :=
  let h_a := a.h.getD 78
  let h_b := b.h.getD 78
  let ws_a := a.ws.getD (a.h.getD 78 + 4)
  let ws_b := b.ws.getD (h_b + 4)
  [("ppg", (range_normalize adj_a.ppg "ppg" - range_normalize adj_b.ppg "ppg") ^ 2 * dw.ppg),
     ("rpg", (range_normalize adj_a.rpg "rpg" - range_normalize adj_b.rpg "rpg") ^ 2 * dw.rpg),
     ("apg", (range_normalize adj_a.apg "apg" - range_normalize adj_b.apg "apg") ^ 2 * dw.apg),
     ("spg", (range_normalize adj_a.spg "spg" - range_normalize adj_b.spg "spg") ^ 2 * dw.spg),
     ("bpg", (range_normalize adj_a.bpg "bpg" - range_normalize adj_b.bpg "bpg") ^ 2 * dw.bpg),
     ("fg", (range_normalize (a.fg.getD 0) "fg" - range_normalize (b.stats.fg.getD 0) "fg") ^ 2 * dw.fg),
     ("threeP", (range_normalize (a.threeP.getD 0) "threeP" - range_normalize (b.stats.threeP.getD 0) "threeP") ^ 2 * dw.threeP),
     ("ft", (range_normalize (a.ft.getD 0) "ft" - range_normalize (b.stats.ft.getD 0) "ft") ^ 2 * dw.ft),
     ("ato", (range_normalize input_ato "ato" - range_normalize db_ato "ato") ^ 2 * dw.ato),
     ("height", (range_normalize h_a "height" - range_normalize h_b "height") ^ 2 * dw.height),
     ("weight", (range_normalize (a.w.getD 0) "weight" - range_normalize (b.w.getD 200) "weight") ^ 2 * dw.weight),
     ("ws", (range_normalize ws_a "ws" - range_normalize ws_b "ws") ^ 2 * dw.ws),
     ("age", (range_normalize (a.age.getD 0) "age" - range_normalize (b.age.getD 4) "age") ^ 2 * dw.age),
     ("mpg", (range_normalize (a.mpg.getD 0) "mpg" - range_normalize (b.stats.mpg.getD 0) "mpg") ^ 2 * dw.mpg)]

/-- The optional advanced-stat distance terms of `calculate_similarity`
(the `bpm/obpm/dbpm/stl_per/usg` loop, the `fta_pg` block and the
`ftr/rim_pct/tpa` loop), in source order. -/
def advDiffs (a : Player) (b : DbPlayer) (dw : DynWeights) : List (String × ℚ) :=
  advTerm "bpm" (a.bpm.getD 0) (b.stats.bpm.getD 0) dw.bpm ++
  advTerm "obpm" (a.obpm.getD 0) (b.stats.obpm.getD 0) dw.obpm ++
  advTerm "dbpm" (a.dbpm.getD 0) (b.stats.dbpm.getD 0) dw.dbpm ++
  advTerm "stl_per" (a.stl_per.getD 0) (b.stats.stl_per.getD 0) dw.stl_per ++
  advTerm "usg" (a.usg.getD 0) (b.stats.usg.getD 0) dw.usg ++
  advTerm "fta_pg" (a.fta.getD 0) (b.stats.fta.getD 0) dw.fta_pg ++
  advTerm "ftr" (a.ftr.getD 0) (b.stats.ftr.getD 0) dw.ftr ++
  advTerm "rim_pct" (a.rim_pct.getD 0) (b.stats.rim_pct.getD 0) dw.rim_pct ++
  advTerm "tpa" (a.tpa.getD 0) (b.stats.tpa.getD 0) dw.tpa

/-- `similarity.calculate_similarity`.  Parameters follow the source:
`(player_a, player_b, pos_avgs, use_v2, weight_mods, use_v3)`; a `none`
weight-mods argument is Python's `weight_mods=None`. -/
def calculate_similarity (a : Player) (b : DbPlayer)
    (posAvgs : List (String × List (String × ℚ))) (useV2 : Bool)
    (mods : Option (List (String × ℚ))) (useV3 : Bool) : SimResult :=
  let bw := applyWeightMods (baseWeightsFor useV2 useV3) (mods.getD [])
  let adj_a := adjStatsA a
  let adj_b := adjStatsB b
  let input_ato := atoOf (a.apg.getD 0) (a.tpg.getD 0)
  let db_ato := atoOf (b.stats.apg.getD 0) (b.stats.tpg.getD 0)
  let pos_avg := posAvgFor posAvgs (a.pos.getD "W")
  let im := calculate_identity_map adj_a a input_ato pos_avg
  let dw := dynWeightsOf bw im a pos_avg useV3 adj_a
  let pen := penaltyAndReasons a b adj_a adj_b
  { diffs := coreDiffs a b adj_a adj_b input_ato db_ato dw ++ advDiffs a b dw
    penalty := min pen.1 MAX_PENALTY
    penalty_reasons := pen.2
    input_ato := input_ato
    db_ato := db_ato
    star_signals := (count_star_signals a.toStats).1
    unicorn_traits := detect_unicorn_traits a }

/-- The small-sample pool filter shared by `find_top_matches` and
`find_archetype_matches`:
`(s.get("gp", 30) or 30) < 25 or (s.get("mpg", 30) or 30) < 20`. -/
def smallSampleExcluded (s : Stats) : Bool :=
  decide (pyOr (s.gp.getD 30) 30 < 25) || decide (pyOr (s.mpg.getD 30) 30 < 20)

/-- The candidate filter of `find_top_matches`: excluded names,
out-of-range draft years (`player.get("draft_year") or 0`), and small
samples are skipped. -/
def passesTopFilter (p : DbPlayer) : Bool :=
  !(EXCLUDE_PLAYERS.contains (p.name.getD "")) &&
  (decide (COMP_YEAR_RANGE.1 ≤ p.draft_year.getD 0) &&
   decide (p.draft_year.getD 0 ≤ COMP_YEAR_RANGE.2)) &&
  !(smallSampleExcluded p.stats)

/-- A scored candidate (`\x7b"player": ..., "similarity": ...\x7d`). -/
structure MatchR where
  player : DbPlayer
  similarity : SimResult
  deriving DecidableEq

/-- Stable descending sort by similarity score
(`results.sort(key=..., reverse=True)`). -/
noncomputable def sortByScore (l : List MatchR) : List MatchR :=
  l.mergeSort (fun x y => decide (y.similarity.score ≤ x.similarity.score))

/-- `similarity.find_top_matches` (the unused `weights_override` parameter
of the source is omitted). -/
noncomputable def find_top_matches (prospect : Player) (player_db : List DbPlayer)
    (posAvgs : List (String × List (String × ℚ))) (top_n : ℕ)
    (useV2 useV3 : Bool) : List MatchR :=
  let results := (player_db.filter passesTopFilter).map
    (fun p => ⟨p, calculate_similarity prospect p posAvgs useV2 none useV3⟩)
  (sortByScore results).take top_n

/-- The same-archetype candidate pool of `find_archetype_matches`:
candidates must have college stats, pass the name/year/small-sample
filters, and classify to the prospect's archetype. -/
def sameArchPool (prospect : Player) (player_db : List DbPlayer) : List DbPlayer :=
  let archetype := (classify_archetype prospect).1
  player_db.filter (fun p =>
    (p.has_college_stats.getD false) &&
    passesTopFilter p &&
    decide ((classify_archetype_db p).1 = archetype))

/-- The post-selection tier sanity swap of `find_archetype_matches`:
if both comps exist and the ceiling has a (numerically) greater tier than
the floor, they are exchanged. -/
def sanitySwap (c f : Option MatchR) : Option MatchR × Option MatchR :=
  match c, f with
  | some cc, some ff =>
      if ff.player.tier < cc.player.tier then (some ff, some cc) else (some cc, some ff)
  | c, f => (c, f)

/-- The output record of `find_archetype_matches` (the Python key
`"matches"` is the field `top_matches` here, since `matches` is reserved
syntax in Lean). -/
structure CompSet where
  archetype : String
  secondary : String
  arch_confidence : ℚ
  top_matches : List MatchR
  predicted_tier : ℤ
  closest_comp : Option MatchR
  ceiling_comp : Option MatchR
  ceiling_tier : ℤ
  floor_comp : Option MatchR
  floor_tier : ℤ
  pool_size : ℕ

/-- `similarity.find_archetype_matches`. -/
noncomputable def find_archetype_matches (prospect : Player)
    (player_db : List DbPlayer) (posAvgs : List (String × List (String × ℚ)))
    (top_n : ℕ) (useV2 : Bool) (anchor_tier : Option ℤ) (useV3 : Bool) : CompSet :=
  let cls := classify_archetype prospect
  let weight_mods := (ARCHETYPE_WEIGHT_MODS.lookup cls.1).getD []
  let same_arch := sameArchPool prospect player_db
  let results := sortByScore (same_arch.map
    (fun p => ⟨p, calculate_similarity prospect p posAvgs useV2 (some weight_mods) useV3⟩))
  let top_matches := results.take top_n
  let closest_comp := results.head?
  let pred : ℤ :=
    match anchor_tier with
    | some t => t
    | none => match closest_comp with
              | some c => c.player.tier
              | none => 4
  let ceil_target_lo := max 1 (pred - 2)
  let ceil_target_hi := pred - 1
  let ceiling0 : Option MatchR :=
    if ceil_target_lo ≤ ceil_target_hi then
      results.find? (fun m =>
        decide (ceil_target_lo ≤ m.player.tier) && decide (m.player.tier ≤ ceil_target_hi) &&
        decide ((30 : ℝ) ≤ m.similarity.score))
    else none
  let ceiling1 : Option MatchR :=
    match ceiling0 with
    | some c => some c
    | none => results.find? (fun m =>
        decide (m.player.tier ≤ pred) && decide ((30 : ℝ) ≤ m.similarity.score))
  let ceiling2 : Option MatchR :=
    match ceiling1 with
    | some c => some c
    | none => closest_comp
  let floor_target_lo := pred + 1
  let floor_target_hi := min 5 (pred + 2)
  let floor0 : Option MatchR :=
    if floor_target_lo ≤ floor_target_hi then
      results.find? (fun m =>
        decide (floor_target_lo ≤ m.player.tier) && decide (m.player.tier ≤ floor_target_hi) &&
        decide ((30 : ℝ) ≤ m.similarity.score))
    else none
  let floor1 : Option MatchR :=
    match floor0 with
    | some f => some f
    | none => results.find? (fun m =>
        decide (pred ≤ m.player.tier) && decide ((30 : ℝ) ≤ m.similarity.score))
  let floor2 : Option MatchR :=
    match floor1 with
    | some f => some f
    | none => closest_comp
  let swapped := sanitySwap ceiling2 floor2
  { archetype := cls.1
    secondary := cls.2.2
    arch_confidence := cls.2.1
    top_matches := top_matches
    predicted_tier := pred
    closest_comp := closest_comp
    ceiling_comp := swapped.1
    ceiling_tier := match swapped.1 with | some c => c.player.tier | none => pred
    floor_comp := swapped.2
    floor_tier := match swapped.2 with | some f => f.player.tier | none => pred
    pool_size := same_arch.length }

/-! ## Helper lemmas -/

theorem lookup_mem {β : Type} {l : List (String × β)} {k : String} {v : β}
    (h : l.lookup k = some v) : (k, v) ∈ l := by
  induction l with
  | nil => simp [List.lookup] at h
  | cons x xs ih =>
    obtain ⟨k', v'⟩ := x
    rw [List.lookup] at h
    cases hx : (k == k') with
    | true =>
      rw [hx] at h
      cases h
      have hk : k = k' := by simpa using hx
      subst hk
      exact List.mem_cons_self _ _
    | false =>
      rw [hx] at h
      exact List.mem_cons_of_mem _ (ih h)

theorem lookup_forall {β : Type} {P : β → Prop} {l : List (String × β)}
    (hl : ∀ kv ∈ l, P kv.2) {k : String} {v : β}
    (h : l.lookup k = some v) : P v := hl _ (lookup_mem h)

theorem STAT_RANGES_sound : ∀ kv ∈ STAT_RANGES, kv.2.1 ≤ kv.2.2 := by
  norm_num [STAT_RANGES, List.forall_mem_cons]

theorem MAX_STATS_sound : ∀ kv ∈ MAX_STATS, (0 : ℚ) ≤ kv.2 := by
  norm_num [MAX_STATS, List.forall_mem_cons]

/-! ## Concrete inputs used by counterexamples and witnesses -/

/-- A profile with no fields at all (an empty dict). -/
def emptyProfile : Player := {}

/-- A guard with strong counting stats, rim/FTR/3PA data and a present
DBPM, but none of the five advanced stats the fallback tests
(BPM/OBPM/FTA/steal%/usage), no proxy-qualifying stat, and a freshman
class year. -/
def cx1 : Player :=
  { pos := some "G", ppg := some 20, quadrant := some "Q1", ft := some 70,
    fg := some 55, rpg := some 6, dbpm := some 7, ftr := some 55,
    rim_pct := some 75, tpa := some 5, threeP := some 36, spg := some 0,
    age := some 1, mpg := some 30, h := some 78 }

/-! ## C1: the 40-point cap of the missing-advanced-stats fallback -/

/-- C1, counterexample: for `cx1` none of BPM/OBPM/FTA/steal%/usage is
present and the proxy rule set awards zero points, yet `predict_tier`
returns a final score of 46 > 40 — the cap applied inside the fallback is
later raised by the +6 freshman class-year bonus, so the cap does not
bound the final score. -/
theorem C1_cap_counterexample :
    hasAdvanced cx1 = false ∧ (proxyPoints cx1).1 = 0 ∧
    ¬ ((predict_tier cx1).score ≤ 40) := by
  refine ⟨by simp [hasAdvanced, cx1, Stats.get], ?_, ?_⟩
  · simp [proxyPoints, cx1, quadMod, QUADRANT_MODIFIERS, List.lookup, pyOr] <;>
      norm_num
  · have h : (predict_tier cx1).score = 46 := by
      simp [predict_tier, scoreAfterFallback, baseScoreAndReasons,
        baseRulesA, baseRulesB, proxyPoints, hasAdvanced, Stats.get,
        count_star_signals, STAR_SIGNAL_THRESHOLDS, detect_unicorn_traits,
        quadMod, QUADRANT_MODIFIERS, List.lookup, pyOr, cx1, tierOfScore,
        roundTo1] <;> norm_num
    rw [h]
    norm_num

/-- C1, amended: if none of BPM/OBPM/FTA/steal%/usage is present and the
proxy rule set awards zero points, then the score is capped at 40 *at the
fallback point*; the class-year signal and the red-flag rules still run
afterwards, so the final returned score may differ from (in particular
exceed) the capped value. -/
theorem C1_cap_after_fallback (p : Player)
    (h1 : hasAdvanced p = false) (h2 : (proxyPoints p).1 = 0) :
    (scoreAfterFallback p).1 ≤ 40 := by
  simp only [scoreAfterFallback, h1, Bool.false_eq_true, if_false, h2, add_zero]
  split_ifs with h
  · norm_num
  · have hng : ¬ (baseScoreAndReasons p).1 > 40 := fun hgt => h ⟨by trivial, hgt⟩
    linarith [not_lt.mp hng]

/-- C1, witness for the amended theorem at `cx1`. -/
theorem C1_cap_after_fallback_witness :
    hasAdvanced cx1 = false ∧ (proxyPoints cx1).1 = 0 ∧
    (scoreAfterFallback cx1).1 ≤ 40 := by
  have h1 : hasAdvanced cx1 = false := by simp [hasAdvanced, cx1, Stats.get]
  have h2 : (proxyPoints cx1).1 = 0 := by
    simp [proxyPoints, cx1, quadMod, QUADRANT_MODIFIERS, List.lookup, pyOr] <;>
      norm_num
  exact ⟨h1, h2, C1_cap_after_fallback cx1 h1 h2⟩

/-! ## C7: properties of range_normalize -/

/-- C7: for every fixed stat key, `range_normalize` is non-decreasing in
its value argument and always lands in [0, 1]; and whenever the curated
range table maps a key to a degenerate range with `low = high`, the
normalizer returns exactly 1/2. -/
theorem C7_range_normalize_props (key : String) (v w : ℚ) (hvw : v ≤ w) :
    range_normalize v key ≤ range_normalize w key ∧
    (0 ≤ range_normalize v key ∧ range_normalize v key ≤ 1) ∧
    (∀ (ranges : List (String × ℚ × ℚ)) (maxes : List (String × ℚ)) (lo : ℚ),
      ranges.lookup key = some (lo, lo) → rnCore ranges maxes v key = 1/2) := by
  refine ⟨?_, ?_, ?_⟩
  · unfold range_normalize rnCore
    cases hR : STAT_RANGES.lookup key with
    | some p =>
      obtain ⟨lo, hi⟩ := p
      have hle : lo ≤ hi :=
        lookup_forall (P := fun q : ℚ × ℚ => q.1 ≤ q.2) STAT_RANGES_sound hR
      by_cases hd : hi = lo
      · simp [hd]
      · have hpos : 0 < hi - lo := sub_pos.mpr (lt_of_le_of_ne hle (Ne.symm hd))
        simp only [if_neg hd]
        gcongr
    | none =>
      have hM : (0:ℚ) ≤ (MAX_STATS.lookup key).getD 1 := by
        cases hM : MAX_STATS.lookup key with
        | none => norm_num
        | some m => simpa using lookup_forall (P := fun q : ℚ => 0 ≤ q) MAX_STATS_sound hM
      by_cases hm : (MAX_STATS.lookup key).getD 1 = 0
      · simp [hm]
      · have hmpos : 0 < (MAX_STATS.lookup key).getD 1 := lt_of_le_of_ne hM (Ne.symm hm)
        simp only [ne_eq, hm, not_false_eq_true, if_true, if_pos]
        gcongr
  · unfold range_normalize rnCore
    cases hR : STAT_RANGES.lookup key with
    | some p =>
      obtain ⟨lo, hi⟩ := p
      by_cases hd : hi = lo
      · norm_num [hd]
      · simp only [if_neg hd]
        constructor
        · exact le_min (le_max_right _ 0) (by norm_num)
        · exact min_le_right _ 1
    | none =>
      by_cases hm : (MAX_STATS.lookup key).getD 1 = 0
      · simp [hm]
      · simp only [ne_eq, hm, not_false_eq_true, if_true, if_pos]
        constructor
        · exact le_min (le_max_right _ 0) (by norm_num)
        · exact min_le_right _ 1
  · intro ranges maxes lo h
    unfold rnCore
    rw [h]
    simp

/-- C7, witness: monotonicity at a concrete pair, the bounds, and the
degenerate-range case on a one-entry table. -/
theorem C7_range_normalize_witness :
    range_normalize 3 "height" ≤ range_normalize 5 "height" ∧
    (0 ≤ range_normalize 3 "height" ∧ range_normalize 3 "height" ≤ 1) ∧
    rnCore [("x", (2, 2))] [] 7 "x" = 1/2 := by
  refine ⟨(C7_range_normalize_props "height" 3 5 (by norm_num)).1,
    (C7_range_normalize_props "height" 3 5 (by norm_num)).2.1,
    (C7_range_normalize_props "x" 7 7 le_rfl).2.2 [("x", (2, 2))] [] 2 rfl⟩

/-! ## C10: the small-sample pool filter -/

/-- A stat block with both sample-size keys missing. -/
def wit10a : Stats := {}

/-- A stat block with an explicitly present games-played value below 25. -/
def wit10b : Stats := { gp := some 10 }

/-- C10: a candidate whose games-played and minutes-per-game keys are
absent defaults to 30 on both and passes the small-sample filter of
`find_top_matches` / `find_archetype_matches`; and the filter excludes a
candidate only when an explicitly present games-played value is below 25
or an explicitly present minutes-per-game value is below 20. -/
theorem C10_small_sample_filter (s : Stats) :
    ((s.gp = none ∧ s.mpg = none) → smallSampleExcluded s = false) ∧
    (smallSampleExcluded s = true →
      (∃ v, s.gp = some v ∧ v < 25) ∨ (∃ v, s.mpg = some v ∧ v < 20)) := by
  constructor
  · rintro ⟨h1, h2⟩
    simp only [smallSampleExcluded, h1, h2, Option.getD_none, pyOr]
    norm_num
  · intro h
    simp only [smallSampleExcluded, Bool.or_eq_true, decide_eq_true_eq] at h
    rcases h with h | h
    · left
      cases hg : s.gp with
      | none =>
        rw [hg] at h
        simp only [Option.getD_none, pyOr] at h
        norm_num at h
      | some v =>
        rw [hg] at h
        simp only [Option.getD_some, pyOr] at h
        by_cases hv : v = 0
        · rw [if_pos hv] at h; norm_num at h
        · rw [if_neg hv] at h; exact ⟨v, rfl, h⟩
    · right
      cases hg : s.mpg with
      | none =>
        rw [hg] at h
        simp only [Option.getD_none, pyOr] at h
        norm_num at h
      | some v =>
        rw [hg] at h
        simp only [Option.getD_some, pyOr] at h
        by_cases hv : v = 0
        · rw [if_pos hv] at h; norm_num at h
        · rw [if_neg hv] at h; exact ⟨v, rfl, h⟩

/-- C10, witness: the all-absent block passes, and a present `gp = 10`
trips the filter through the explicit-value clause. -/
theorem C10_small_sample_witness :
    smallSampleExcluded wit10a = false ∧
    ((∃ v, wit10b.gp = some v ∧ v < 25) ∨ (∃ v, wit10b.mpg = some v ∧ v < 20)) := by
  refine ⟨(C10_small_sample_filter wit10a).1 ⟨rfl, rfl⟩,
    (C10_small_sample_filter wit10b).2 ?_⟩
  norm_num [smallSampleExcluded, wit10b, pyOr]

/-! ## C4: output bounds of the engine and the scorer -/

theorem ite_pair_fst_nonneg {c : Prop} [Decidable c] {q : ℚ} {r : List String}
    (hq : 0 ≤ q) : 0 ≤ (if c then (q, r) else ((0 : ℚ), ([] : List String))).1 := by
  split <;> simp [hq]

theorem posGapPenalty_nonneg (a : Player) (b : DbPlayer) (adj_a : Adj) :
    0 ≤ posGapPenalty a b adj_a := by
  simp only [posGapPenalty]
  split_ifs <;> norm_num

theorem penaltyAndReasons_nonneg (a : Player) (b : DbPlayer) (x y : Adj) :
    0 ≤ (penaltyAndReasons a b x y).1 := by
  have h0 := posGapPenalty_nonneg a b x
  simp only [penaltyAndReasons]
  refine add_nonneg (add_nonneg (add_nonneg (add_nonneg (add_nonneg
    (add_nonneg h0 ?_) ?_) ?_) ?_) ?_) ?_ <;>
    exact ite_pair_fst_nonneg (by norm_num)

theorem calc_penalty_def (a : Player) (b : DbPlayer)
    (posAvgs : List (String × List (String × ℚ))) (useV2 : Bool)
    (mods : Option (List (String × ℚ))) (useV3 : Bool) :
    (calculate_similarity a b posAvgs useV2 mods useV3).penalty =
      min (penaltyAndReasons a b (adjStatsA a) (adjStatsB b)).1 MAX_PENALTY := rfl

theorem score_nonneg_le (r : SimResult) (hpen : 0 ≤ r.penalty) :
    0 ≤ r.score ∧ r.score ≤ 100 := by
  unfold SimResult.score
  constructor
  · exact le_max_left 0 _
  · have hs : (0:ℝ) ≤ Real.sqrt (r.S : ℝ) := Real.sqrt_nonneg _
    have hp : (0:ℝ) ≤ (r.penalty : ℝ) := by exact_mod_cast hpen
    have h1 : max (0:ℝ) (100 - Real.sqrt (r.S : ℝ) / 6 * 100) ≤ 100 := by
      apply max_le <;> nlinarith
    apply max_le <;> nlinarith

theorem tierOfScore_mem (q : ℚ) : (tierOfScore q).1 ∈ ([1, 2, 3, 4, 5] : List ℤ) := by
  unfold tierOfScore
  split_ifs <;> simp

/-- C4: for every pair of profiles and every weight configuration,
`calculate_similarity` returns a score in [0, 100] and never subtracts a
penalty above the configured maximum of 25 (even when several penalty
rules fire, by the cap); and `predict_tier` always returns a tier in
1..5. -/
theorem C4_output_bounds :
    (∀ (a : Player) (b : DbPlayer) (posAvgs : List (String × List (String × ℚ)))
       (useV2 : Bool) (mods : Option (List (String × ℚ))) (useV3 : Bool),
       0 ≤ (calculate_similarity a b posAvgs useV2 mods useV3).score ∧
       (calculate_similarity a b posAvgs useV2 mods useV3).score ≤ 100 ∧
       (calculate_similarity a b posAvgs useV2 mods useV3).penalty ≤ 25) ∧
    (∀ p : Player, (predict_tier p).tier ∈ ([1, 2, 3, 4, 5] : List ℤ)) := by
  constructor
  · intro a b posAvgs useV2 mods useV3
    have hpen : 0 ≤ (calculate_similarity a b posAvgs useV2 mods useV3).penalty := by
      rw [calc_penalty_def]
      exact le_min (penaltyAndReasons_nonneg _ _ _ _) (by norm_num [MAX_PENALTY])
    obtain ⟨h1, h2⟩ := score_nonneg_le _ hpen
    refine ⟨h1, h2, ?_⟩
    rw [calc_penalty_def]
    simpa [MAX_PENALTY] using min_le_right
      (penaltyAndReasons a b (adjStatsA a) (adjStatsB b)).1 MAX_PENALTY
  · intro p
    exact tierOfScore_mem _

/-! ## C8: the scorer is total and degrades to tier 5 on an empty profile -/

/-- C8: `predict_tier` is total by construction in this embedding (it is a
plain function: every stat access resolves an absent field to its
documented default, and no rule can fail), and on the completely empty
profile it returns tier 5 with an empty reasons list. -/
theorem C8_empty_profile_tier5 :
    (predict_tier emptyProfile).tier = 5 ∧ (predict_tier emptyProfile).reasons = [] := by
  constructor <;>
    simp [predict_tier, scoreAfterFallback, baseScoreAndReasons, baseRulesA,
      baseRulesB, proxyPoints, hasAdvanced, Stats.get, count_star_signals,
      STAR_SIGNAL_THRESHOLDS, detect_unicorn_traits, quadMod,
      QUADRANT_MODIFIERS, List.lookup, pyOr, emptyProfile, tierOfScore,
      roundTo1] <;> norm_num

/-! ## C3: the ceiling/floor tier-ordering invariant -/

/-- Tier comparison on optional comps: vacuous unless both are present. -/
def tierLeOpt : Option MatchR → Option MatchR → Prop
  | some c, some f => c.player.tier ≤ f.player.tier
  | _, _ => True

theorem sanitySwap_le (c f : Option MatchR) :
    tierLeOpt (sanitySwap c f).1 (sanitySwap c f).2 := by
  match c, f with
  | none, none => trivial
  | none, some ff => trivial
  | some cc, none => trivial
  | some cc, some ff =>
    simp only [sanitySwap]
    by_cases h : ff.player.tier < cc.player.tier
    · simp only [if_pos h]
      exact le_of_lt h
    · simp only [if_neg h]
      exact not_lt.mp h

/-- C3: in every CompSet returned by `find_archetype_matches` — for every
anchor tier and candidate pool — if both the ceiling comp and the floor
comp are present then the ceiling's tier is at most the floor's tier,
enforced by the post-selection swap. -/
theorem C3_ceiling_le_floor (prospect : Player) (player_db : List DbPlayer)
    (posAvgs : List (String × List (String × ℚ))) (top_n : ℕ) (useV2 : Bool)
    (anchor_tier : Option ℤ) (useV3 : Bool) :
    tierLeOpt
      (find_archetype_matches prospect player_db posAvgs top_n useV2 anchor_tier useV3).ceiling_comp
      (find_archetype_matches prospect player_db posAvgs top_n useV2 anchor_tier useV3).floor_comp :=
  sanitySwap_le _ _

/-! ## C9: behavior on an empty filtered pool -/

/-- C9: when the filtered same-archetype pool is empty,
`find_archetype_matches` returns `none` for closest, ceiling and floor,
and the anchor tier used is the supplied one, or the fixed default 4 when
none is supplied. -/
theorem C9_empty_pool (prospect : Player) (player_db : List DbPlayer)
    (posAvgs : List (String × List (String × ℚ))) (top_n : ℕ) (useV2 : Bool)
    (anchor_tier : Option ℤ) (useV3 : Bool)
    (hpool : sameArchPool prospect player_db = []) :
    (find_archetype_matches prospect player_db posAvgs top_n useV2 anchor_tier useV3).closest_comp = none ∧
    (find_archetype_matches prospect player_db posAvgs top_n useV2 anchor_tier useV3).ceiling_comp = none ∧
    (find_archetype_matches prospect player_db posAvgs top_n useV2 anchor_tier useV3).floor_comp = none ∧
    (find_archetype_matches prospect player_db posAvgs top_n useV2 anchor_tier useV3).predicted_tier =
      anchor_tier.getD 4 := by
  cases anchor_tier <;>
    simp [find_archetype_matches, hpool, sortByScore, sanitySwap]

/-- C9, witness: the empty database with a supplied anchor tier of 2. -/
theorem C9_empty_pool_witness :
    sameArchPool emptyProfile [] = [] ∧
    (find_archetype_matches emptyProfile [] POSITIONAL_AVGS 10 true (some 2) false).closest_comp = none ∧
    (find_archetype_matches emptyProfile [] POSITIONAL_AVGS 10 true (some 2) false).ceiling_comp = none ∧
    (find_archetype_matches emptyProfile [] POSITIONAL_AVGS 10 true (some 2) false).floor_comp = none ∧
    (find_archetype_matches emptyProfile [] POSITIONAL_AVGS 10 true (some 2) false).predicted_tier = 2 := by
  have hpool : sameArchPool emptyProfile [] = [] := rfl
  have h := C9_empty_pool emptyProfile [] POSITIONAL_AVGS 10 true (some 2) false hpool
  exact ⟨hpool, h.1, h.2.1, h.2.2.1, by rw [h.2.2.2]; rfl⟩

/-! ## C2: present-zero vs absent advanced stats -/

/-- A prospect with BPM 10 and nothing else. -/
def pa2 : Player := { bpm := some 10 }

/-- A candidate whose nested stat block has BPM explicitly present and
equal to zero. -/
def cb0 : DbPlayer := { tier := 3, stats := { bpm := some 0 } }

/-- A candidate whose nested stat block has no BPM key at all. -/
def cbn : DbPlayer := { tier := 3, stats := {} }

/-- C2, counterexample: a candidate with BPM stored as zero and a
candidate with BPM missing produce the *identical* similarity result
against a BPM-10 prospect — both get the neutral-midpoint half-weight
substitution (value 5/32 under V3 weights), and neither is compared at
its own normalized value with full weight (which would be 5/4). -/
theorem C2_counterexample :
    calculate_similarity pa2 cb0 POSITIONAL_AVGS true none true =
      calculate_similarity pa2 cbn POSITIONAL_AVGS true none true ∧
    (calculate_similarity pa2 cb0 POSITIONAL_AVGS true none true).diffs.lookup "bpm" =
      some ((range_normalize 10 "bpm" - 0.5) ^ 2 * 5.0 * 0.5) ∧
    ((range_normalize 10 "bpm" - 0.5) ^ 2 * 5.0 * 0.5 : ℚ) ≠
      (range_normalize 10 "bpm" - range_normalize 0 "bpm") ^ 2 * 5.0 := by
  refine ⟨rfl, rfl, ?_⟩
  simp [range_normalize, rnCore, STAT_RANGES, List.lookup] <;> norm_num

/-- C2, amended: `calculate_similarity` cannot distinguish a present-zero
advanced stat from an absent one: the candidate's value enters each
advanced-stat term only through `get(stat, 0)`, so a stored zero and a
missing key give identical output; when the prospect's value is nonzero,
both cases produce the neutral-midpoint half-weight substitution, not a
full-weight comparison at the candidate's own normalized value. -/
theorem C2_zero_equals_absent (a : Player) (b : DbPlayer)
    (posAvgs : List (String × List (String × ℚ))) (useV2 : Bool)
    (mods : Option (List (String × ℚ))) (useV3 : Bool)
    (va w : ℚ) (k : String) (hva : va ≠ 0) :
    (calculate_similarity a { b with stats := { b.stats with bpm := some 0 } } posAvgs useV2 mods useV3 =
     calculate_similarity a { b with stats := { b.stats with bpm := none } } posAvgs useV2 mods useV3) ∧
    advTerm k va 0 w = [(k, (range_normalize va k - 0.5) ^ 2 * w * 0.5)] := by
  constructor
  · rfl
  · simp [advTerm, hva]

/-- C2, witness for the amended theorem at concrete inputs. -/
theorem C2_zero_equals_absent_witness :
    (calculate_similarity pa2 { cbn with stats := { cbn.stats with bpm := some 0 } } POSITIONAL_AVGS true none true =
     calculate_similarity pa2 { cbn with stats := { cbn.stats with bpm := none } } POSITIONAL_AVGS true none true) ∧
    advTerm "bpm" 10 0 5 = [("bpm", (range_normalize 10 "bpm" - 0.5) ^ 2 * 5 * 0.5)] :=
  C2_zero_equals_absent pa2 cbn POSITIONAL_AVGS true none true 10 5 "bpm" (by norm_num)

/-! ## C6: the cross-position exception for passing bigs -/

/-- A Big with raw assists-per-game 4.5 playing 40 minutes: the damped
per-30 normalization scales the assists down to 3.7125. -/
def a6 : Player := { pos := some "B", apg := some 4.5, mpg := some 40 }

/-- A Guard candidate with no other data. -/
def b6 : DbPlayer := { pos := some "G", tier := 3 }

/-- A Big whose per-30 adjusted assists do exceed 4.0. -/
def a6w : Player := { pos := some "B", apg := some 5, mpg := some 30 }

/-- C6, counterexample: `a6` is a Big with raw assists-per-game 4.5 > 4.0
compared against a Guard, yet the position-gap penalty contributed is 15,
not zero — the documented exception tests the per-30 damped assists
(3.7125 here), not the raw assists-per-game. -/
theorem C6_counterexample :
    a6.pos = some "B" ∧ a6.apg.getD 0 > 4 ∧ b6.pos = some "G" ∧
    posGapPenalty a6 b6 (adjStatsA a6) = 15 ∧
    (calculate_similarity a6 b6 POSITIONAL_AVGS true none false).penalty = 15 := by
  refine ⟨rfl, by norm_num [a6], rfl, ?_, ?_⟩
  · simp [posGapPenalty, a6, b6, adjStatsA, normalize_to_30, countingOfStats,
      quadMod, QUADRANT_MODIFIERS, List.lookup, pyOr] <;> norm_num
  · rw [calc_penalty_def]
    have hpen : (penaltyAndReasons a6 b6 (adjStatsA a6) (adjStatsB b6)).1 = 15 := by
      simp [penaltyAndReasons, posGapPenalty, adjStatsA, adjStatsB,
        normalize_to_30, countingOfStats, quadMod, QUADRANT_MODIFIERS,
        List.lookup, pyOr, a6, b6] <;> norm_num
    rw [hpen]
    norm_num [MAX_PENALTY]

/-- C6, amended: the exception is keyed on the per-30-adjusted assists:
whenever the prospect's position is Big, the prospect's per-30 damped
assists exceed 4.0 and the candidate's position is Guard or Wing, the
position-gap penalty contributed by `calculate_similarity` is exactly
zero. -/
theorem C6_exception_fires (a : Player) (b : DbPlayer)
    (h1 : a.pos = some "B") (h2 : (adjStatsA a).apg > 4.0)
    (h3 : b.pos = some "G" ∨ b.pos = some "W") :
    posGapPenalty a b (adjStatsA a) = 0 := by
  have hBG : ¬ (a.pos = some "G" ∧ (adjStatsA a).rpg > 7.0 ∧
      (b.pos = some "W" ∨ b.pos = some "B")) := by
    rintro ⟨hg, -, -⟩
    rw [h1] at hg
    simp at hg
  simp only [posGapPenalty]
  rw [if_neg hBG, if_pos ⟨h1, h2, h3⟩]

/-- C6, witness for the amended theorem: a Big at 30 minutes with 5
assists per game (adjusted assists 5 > 4) against a Guard. -/
theorem C6_exception_witness :
    a6w.pos = some "B" ∧ (adjStatsA a6w).apg > 4.0 ∧ b6.pos = some "G" ∧
    posGapPenalty a6w b6 (adjStatsA a6w) = 0 := by
  have h2 : (adjStatsA a6w).apg > 4.0 := by
    simp [adjStatsA, normalize_to_30, countingOfStats, quadMod,
      QUADRANT_MODIFIERS, List.lookup, pyOr, a6w] <;> norm_num
  exact ⟨rfl, h2, rfl, C6_exception_fires a6w b6 rfl h2 (Or.inl rfl)⟩

/-! ## C5: self-comparison similarity -/

/-- A database record that is an unmodified copy of a prospect: the same
nested stat block, the same top-level identity fields, and an arbitrary
outcome tier. -/
def selfCopy (p : Player) (t : ℤ) : DbPlayer :=
  { name := p.name, pos := p.pos, h := p.h, ws := p.ws, w := p.w,
    age := p.age, quadrant := p.quadrant, tier := t, stats := p.toStats }

theorem advTerm_self_sum (k : String) (v w : ℚ) :
    ((advTerm k v v w).map Prod.snd).sum = 0 := by
  unfold advTerm
  split_ifs with h1 h2
  · simp
  · exact absurd h2.2 h2.1
  · simp

/-- Comparing a prospect with an explicit class year against its
unmodified copy yields a zero distance sum: every per-stat term compares
a value with itself. -/
theorem selfCopy_S_eq_zero (p : Player) (t : ℤ)
    (posAvgs : List (String × List (String × ℚ))) (useV2 : Bool)
    (mods : Option (List (String × ℚ))) (useV3 : Bool) (x : ℚ)
    (hage : p.age = some x) :
    (calculate_similarity p (selfCopy p t) posAvgs useV2 mods useV3).S = 0 := by
  simp [calculate_similarity, SimResult.S, coreDiffs, advDiffs, selfCopy,
    adjStatsA, adjStatsB, dynWeightsOf, hage, advTerm_self_sum]

/-- C5, amended: for every prospect profile whose class-year (`age`) field
is present, comparing it with `calculate_similarity` against an
unmodified copy of itself (same stats, same quadrant, same position)
returns a score of at least 99, given that the penalty is zero.  (Without
an explicit class year the claim fails: see the counterexample.) -/
theorem C5_self_similarity (p : Player) (t : ℤ)
    (posAvgs : List (String × List (String × ℚ))) (useV2 : Bool)
    (mods : Option (List (String × ℚ))) (useV3 : Bool)
    (hage : p.age ≠ none)
    (hpen : (calculate_similarity p (selfCopy p t) posAvgs useV2 mods useV3).penalty = 0) :
    (99 : ℝ) ≤ (calculate_similarity p (selfCopy p t) posAvgs useV2 mods useV3).score := by
  obtain ⟨x, hx⟩ := Option.ne_none_iff_exists'.mp hage
  have hS := selfCopy_S_eq_zero p t posAvgs useV2 mods useV3 x hx
  unfold SimResult.score
  rw [hS, hpen]
  norm_num

/-- C5, counterexample: the empty profile compared against an unmodified
copy of itself has zero penalty but a score of 100 − (100/6)·√(6/5) < 99:
the age distance term fires because the prospect side defaults a missing
class year to 0 while the database side defaults it to 4, so
self-comparison is not guaranteed to reach 99. -/
theorem C5_counterexample :
    (calculate_similarity emptyProfile (selfCopy emptyProfile 3) POSITIONAL_AVGS true none false).penalty = 0 ∧
    (calculate_similarity emptyProfile (selfCopy emptyProfile 3) POSITIONAL_AVGS true none false).score < 99 := by
  have hpen : (calculate_similarity emptyProfile (selfCopy emptyProfile 3) POSITIONAL_AVGS true none false).penalty = 0 := by
    rw [calc_penalty_def]
    have h : (penaltyAndReasons emptyProfile (selfCopy emptyProfile 3)
        (adjStatsA emptyProfile) (adjStatsB (selfCopy emptyProfile 3))).1 = 0 := by
      simp [penaltyAndReasons, posGapPenalty, adjStatsA, adjStatsB, selfCopy,
        normalize_to_30, countingOfStats, quadMod, QUADRANT_MODIFIERS,
        List.lookup, pyOr, emptyProfile] <;> norm_num
    rw [h]
    norm_num [MAX_PENALTY]
  have hS : (calculate_similarity emptyProfile (selfCopy emptyProfile 3) POSITIONAL_AVGS true none false).S = 6 / 5 := by
    simp [calculate_similarity, SimResult.S, coreDiffs, advDiffs, advTerm,
      selfCopy, adjStatsA, adjStatsB, dynWeightsOf, calculate_identity_map,
      get_outlier_multiplier, weightGet, applyWeightMods, baseWeightsFor,
      V2_WEIGHTS, posAvgFor, POSITIONAL_AVGS, avgGet, atoOf, normalize_to_30,
      countingOfStats, quadMod, QUADRANT_MODIFIERS, range_normalize, rnCore,
      STAT_RANGES, MAX_STATS, List.lookup, pyOr, emptyProfile] <;> norm_num
  refine ⟨hpen, ?_⟩
  unfold SimResult.score
  rw [hS, hpen]
  have hsqrt : (0.06 : ℝ) < Real.sqrt (((6 : ℚ) / 5 : ℚ) : ℝ) := by
    rw [Real.lt_sqrt (by norm_num)]
    push_cast
    norm_num
  have hinner : max (0:ℝ) (100 - Real.sqrt (((6 : ℚ) / 5 : ℚ) : ℝ) / 6 * 100) < 99 := by
    apply max_lt (by norm_num)
    nlinarith [hsqrt]
  simp only [Rat.cast_zero, sub_zero]
  exact max_lt (by norm_num) hinner

/-- A prospect whose only explicit field is a class year. -/
def p5w : Player := { age := some 2 }

/-- C5, witness for the amended theorem at a concrete profile with an
explicit class year. -/
theorem C5_self_similarity_witness :
    p5w.age ≠ none ∧
    (calculate_similarity p5w (selfCopy p5w 3) POSITIONAL_AVGS true none false).penalty = 0 ∧
    (99 : ℝ) ≤ (calculate_similarity p5w (selfCopy p5w 3) POSITIONAL_AVGS true none false).score := by
  have h1 : p5w.age ≠ none := by simp [p5w]
  have h2 : (calculate_similarity p5w (selfCopy p5w 3) POSITIONAL_AVGS true none false).penalty = 0 := by
    rw [calc_penalty_def]
    have h : (penaltyAndReasons p5w (selfCopy p5w 3)
        (adjStatsA p5w) (adjStatsB (selfCopy p5w 3))).1 = 0 := by
      simp [penaltyAndReasons, posGapPenalty, adjStatsA, adjStatsB, selfCopy,
        normalize_to_30, countingOfStats, quadMod, QUADRANT_MODIFIERS,
        List.lookup, pyOr, p5w] <;> norm_num
    rw [h]
    norm_num [MAX_PENALTY]
  exact ⟨h1, h2, C5_self_similarity p5w 3 POSITIONAL_AVGS true none false h1 h2⟩

end NBAScoutPro
